import Mathlib

/-!
Verification of the SQL-agent orchestration in `ai_sql_assistant_v2`.

The development shallowly embeds:
* `run_sql_query_agents` from `src/ai_agents/sql_query_agents.py`: the
  SME / builder / validator pipeline with its bounded rework loop.
  LLM agent responses are modelled by an environment `AgentEnv` mapping
  each invocation (indexed by invocation count and the input string) to
  the structured output the hosted agent returns.  The run is a pure
  function of that environment producing the final output, the ordered
  trace of agent invocations, and the final handler state.
* The `SnowflakeHandler` query methods from `src/snowflake_utils.py`,
  with the warehouse modelled by an oracle mapping each issued SQL text
  to either fetched results or a driver error.  Each method returns the
  Python result (`Except.error` models a raised exception) together with
  the list of statements actually issued to the warehouse.
* `convert_decimals_to_float` from `src/st_utils.py`, over a column-major
  DataFrame model.
-/

/-- Output model of the SME agent (`DBSMEOutput` in the source). -/
structure DBSMEOutput where
  sufficient_context : Bool
  comment : String
deriving DecidableEq

/-- Output model of the builder agent (`SQLQueryOutput` in the source). -/
structure SQLQueryOutput where
  sql_query : String
  comment : String
  validation_result : Bool
deriving DecidableEq

/-- Output model of the validator agent (`SQLValidationOutput` in the source). -/
structure SQLValidationOutput where
  sql_valid : Bool
  comment : String
deriving DecidableEq

/-- Final output of `run_sql_query_agents` (`SQLAgentFinalOutput` in the source). -/
structure SQLAgentFinalOutput where
  message : Option String
  sql_query : Option String
deriving DecidableEq

/-- Environment supplying the responses of the hosted LLM agents.
`builderResponse k s` is the output of the `k`-th invocation of the
builder agent when run on input `s`; similarly for the validator.
The SME agent is invoked once, on the user input. -/
structure AgentEnv where
  smeResponse : String → DBSMEOutput
  builderResponse : Nat → String → SQLQueryOutput
  validatorResponse : Nat → String → SQLValidationOutput

/-- One agent invocation, as recorded in the run trace: the input the
agent was run on and the structured output it returned. -/
inductive Event where
  | sme (input : String) (out : DBSMEOutput)
  | builder (input : String) (out : SQLQueryOutput)
  | validator (input : String) (out : SQLValidationOutput)
deriving DecidableEq

def Event.isBuilder : Event → Bool
  | Event.builder _ _ => true
  | _ => false

def Event.isValidator : Event → Bool
  | Event.validator _ _ => true
  | _ => false

/-- The builder outputs occurring in a trace, in order. -/
def builderOutputs (tr : List Event) : List SQLQueryOutput :=
  tr.filterMap fun e =>
    match e with
    | Event.builder _ b => some b
    | _ => none

/-- Mutable state of the module-level `SnowflakeHandler`:
`database`/`schema` attributes (Python `None` modelled as `none`) and the
`connection` attribute (`some ()` when a connection object is held,
`none` when `self.connection is None`). -/
structure SFState where
  database : Option String
  schema : Option String
  connection : Option Unit
deriving DecidableEq

/-- Result of one run of `run_sql_query_agents`: the returned
`SQLAgentFinalOutput`, the ordered trace of agent invocations, and the
handler state at the moment the function returns. -/
structure RunResult where
  response : SQLAgentFinalOutput
  trace : List Event
  handler : SFState
deriving DecidableEq

/-- Python `repr` of a `DBSMEOutput` pydantic model, as interpolated by
`f"... {sme_result.final_output} ..."` in the rework context. -/
def DBSMEOutput.pyRepr (o : DBSMEOutput) : String :=
  "DBSMEOutput(sufficient_context=" ++ (if o.sufficient_context then "True" else "False")
    ++ ", comment=\x27" ++ o.comment ++ "\x27)"

/-- The rework context f-string built in the body of the retry loop
(`sql_query_agents.py` lines 241-246). -/
def mkReworkContext (user_input : String) (sme : DBSMEOutput)
    (b : SQLQueryOutput) (v : SQLValidationOutput) : String :=
  "\n            user request: " ++ user_input
    ++ "\n\n            structured context: " ++ sme.pyRepr
    ++ "\n\n            incorrect SQL query: " ++ b.sql_query
    ++ "\n\n            suggested modifications: " ++ v.comment
    ++ "\n            "

/-- `max_retries = 3` in `run_sql_query_agents`. -/
def max_retries : Nat := 3

/-- The `while sql_validation.final_output.sql_valid is False and retry_count < max_retries`
loop of `run_sql_query_agents`.  `fuel` is `max_retries - retry_count`,
`bIdx`/`vIdx` count previous builder/validator invocations.  Returns the
final builder output, the final validation output, and the trace of
agent invocations performed by the loop. -/
def reworkLoop (env : AgentEnv) (user_input : String) (sme : DBSMEOutput) :
    Nat → Nat → Nat → SQLQueryOutput → SQLValidationOutput →
    SQLQueryOutput × SQLValidationOutput × List Event
  | 0, _, _, b, v => (b, v, [])
  | fuel + 1, bIdx, vIdx, b, v =>
    if v.sql_valid = false then
      let ctx := mkReworkContext user_input sme b v
      let b2 := env.builderResponse bIdx ctx
      let v2 := env.validatorResponse vIdx b2.sql_query
      let r := reworkLoop env user_input sme fuel (bIdx + 1) (vIdx + 1) b2 v2
      (r.1, r.2.1, Event.builder ctx b2 :: Event.validator b2.sql_query v2 :: r.2.2)
    else (b, v, [])

/-- Shallow embedding of `run_sql_query_agents(user_input, selected_db,
selected_schema, force_validator_agent)`.  The handler's `database` and
`schema` are assigned, `connect()` sets the connection; on the main path
`close_connection()` resets it to `None` before returning, while the
early insufficient-context `return` leaves it untouched. -/
def run_sql_query_agents (env : AgentEnv) (user_input : String)
    (selected_db selected_schema : String) (force_validator_agent : Bool) : RunResult :=
  let connected : SFState :=
    { database := some selected_db, schema := some selected_schema, connection := some () }
  let sme := env.smeResponse user_input
  if sme.sufficient_context = false then
    { response := { message := some sme.comment, sql_query := some "" },
      trace := [Event.sme user_input sme],
      handler := connected }
  else
    let b0 := env.builderResponse 0 sme.comment
    if b0.validation_result = false ∨ force_validator_agent = true then
      let v0 := env.validatorResponse 0 b0.sql_query
      let r := reworkLoop env user_input sme max_retries 1 1 b0 v0
      { response := { message := some r.1.comment, sql_query := some r.1.sql_query },
        trace := Event.sme user_input sme :: Event.builder sme.comment b0 ::
          Event.validator b0.sql_query v0 :: r.2.2,
        handler := { connected with connection := none } }
    else
      { response := { message := some b0.comment, sql_query := some b0.sql_query },
        trace := [Event.sme user_input sme, Event.builder sme.comment b0],
        handler := { connected with connection := none } }

/-- A DataFrame cell, as delivered by the warehouse driver: Python
`Decimal`, `float`, or `int` values (value payload abstracted to `Int`). -/
inductive Cell where
  | decimal (v : Int)
  | numFloat (v : Int)
  | numInt (v : Int)
deriving DecidableEq

def Cell.isDecimal : Cell → Bool
  | Cell.decimal _ => true
  | _ => false

/-- The effect of pandas `.astype(float)` on one cell. -/
def Cell.astypeFloat : Cell → Cell
  | Cell.decimal v => Cell.numFloat v
  | Cell.numFloat v => Cell.numFloat v
  | Cell.numInt v => Cell.numFloat v

/-- Column-major DataFrame model: a list of (column name, cells) pairs;
`cells` are listed in row order, so `.iloc[0]` of a column is its head. -/
structure DataFrame where
  cols : List (String × List Cell)
deriving DecidableEq

/-- pandas `df.empty`: true when the frame has no columns or no rows. -/
def DataFrame.empty (df : DataFrame) : Bool :=
  df.cols.isEmpty || df.cols.any fun c => c.2.isEmpty

/-- `convert_decimals_to_float` from `src/st_utils.py`: on a non-empty
frame, every column whose first element is a `Decimal` is cast with
`.astype(float)`; all other columns are untouched. -/
def convert_decimals_to_float (df : DataFrame) : DataFrame :=
  if df.empty then df
  else
    { cols := df.cols.map fun c =>
        match c.2.head? with
        | some c0 => if c0.isDecimal then (c.1, c.2.map Cell.astypeFloat) else c
        | none => c }

/-- What a successful `cursor.execute` makes available: the
`fetch_pandas_all()` DataFrame, its `.to_markdown()` rendering, and the
`fetchall()` rows. -/
structure Fetched where
  df : DataFrame
  markdown : String
  rows : List (List String)
deriving DecidableEq

/-- The warehouse, as seen through a cursor: each issued SQL text either
yields fetched results or raises a driver error with the given message. -/
def Warehouse := String → Except String Fetched

/-- The exception message raised by every query method when
`self.connection` is `None`. -/
def connection_error_msg : String := "Connection not established. Call connect() first."

/-- Python `str()` of an optional attribute (`None` prints as "None"),
as interpolated into the query f-strings. -/
def pyStr (o : Option String) : String := o.getD "None"

namespace SnowflakeHandler

/-- `SnowflakeHandler.get_tables`: lists the current schema's tables as a
markdown table.  Returns the Python result (`Except.error` = raised
exception, `Except.ok` = returned string) and the issued statements. -/
def get_tables (st : SFState) (wh : Warehouse) :
    Except String String × List String :=
  let query := "SELECT TABLE_SCHEMA,TABLE_NAME,TABLE_TYPE,ROW_COUNT FROM INFORMATION_SCHEMA.TABLES WHERE TABLE_SCHEMA = \x27" ++ pyStr st.schema ++ "\x27"
  if st.connection.isNone then (Except.error connection_error_msg, [])
  else
    match wh query with
    | Except.ok f => (Except.ok f.markdown, [query])
    | Except.error e => (Except.ok ("❌ Query is invalid \n" ++ e), [query])

/-- `SnowflakeHandler.execute_query_df`: executes `query`, returning the
fetched DataFrame (`Sum.inl`) or, on driver error, an error string
(`Sum.inr`) without raising. -/
def execute_query_df (st : SFState) (wh : Warehouse) (query : String) :
    Except String (Sum DataFrame String) × List String :=
  if st.connection.isNone then (Except.error connection_error_msg, [])
  else
    match wh query with
    | Except.ok f => (Except.ok (Sum.inl f.df), [query])
    | Except.error e =>
      (Except.ok (Sum.inr ("❌ Query execution failed \n" ++ e ++ "\n" ++ query)), [query])

/-- `SnowflakeHandler.execute_query_md`: executes `query`, returning the
markdown rendering or an error string without raising. -/
def execute_query_md (st : SFState) (wh : Warehouse) (query : String) :
    Except String String × List String :=
  if st.connection.isNone then (Except.error connection_error_msg, [])
  else
    match wh query with
    | Except.ok f => (Except.ok f.markdown, [query])
    | Except.error e =>
      (Except.ok ("❌ Query execution failed \n" ++ e ++ "\n" ++ query), [query])

/-- `SnowflakeHandler.validate_query`: issues `EXPLAIN {query}` (never
`query` itself); returns "✅ Query is valid." when EXPLAIN succeeds and
an error string, without raising, when it fails. -/
def validate_query (st : SFState) (wh : Warehouse) (query : String) :
    Except String String × List String :=
  if st.connection.isNone then (Except.error connection_error_msg, [])
  else
    match wh ("EXPLAIN " ++ query) with
    | Except.ok _ => (Except.ok "✅ Query is valid.", ["EXPLAIN " ++ query])
    | Except.error e =>
      (Except.ok ("❌ Query is invalid \n" ++ e ++ "\n" ++ query), ["EXPLAIN " ++ query])

end SnowflakeHandler

/-- Concrete environment: the SME agent reports insufficient context. -/
def envSmeInsufficient : AgentEnv :=
  { smeResponse := fun _ => { sufficient_context := false, comment := "need more info" },
    builderResponse := fun _ _ => { sql_query := "SELECT 1", comment := "b", validation_result := true },
    validatorResponse := fun _ _ => { sql_valid := true, comment := "v" } }

/-- Concrete environment: every agent reports success. -/
def envAllValid : AgentEnv :=
  { smeResponse := fun _ => { sufficient_context := true, comment := "ctx" },
    builderResponse := fun _ _ => { sql_query := "SELECT 1", comment := "b", validation_result := true },
    validatorResponse := fun _ _ => { sql_valid := true, comment := "v" } }

/-- Concrete environment: the builder self-reports failure and the
validator never accepts the query. -/
def envNeverValid : AgentEnv :=
  { smeResponse := fun _ => { sufficient_context := true, comment := "ctx" },
    builderResponse := fun k _ => { sql_query := "SELECT " ++ toString k, comment := "b", validation_result := false },
    validatorResponse := fun _ _ => { sql_valid := false, comment := "bad" } }

/-- Handler state with no established connection. -/
def stNoConn : SFState := { database := some "db", schema := some "sch", connection := none }

/-- Handler state with an established connection. -/
def stConn : SFState := { database := some "db", schema := some "sch", connection := some () }

/-- A warehouse on which every statement succeeds with empty results. -/
def whOk : Warehouse := fun _ => Except.ok { df := { cols := [] }, markdown := "", rows := [] }

/-- A warehouse on which every statement fails with a fixed driver error. -/
def whErr : Warehouse := fun _ => Except.error "syntax error"

/-- Example frame: column "a" starts with a `Decimal`, column "b" starts
with an `int` but contains a `Decimal` in a later row. -/
def dfEx : DataFrame :=
  { cols := [("a", [Cell.decimal 1, Cell.numInt 2]), ("b", [Cell.numInt 3, Cell.decimal 4])] }

/-- The rework loop performs at most `fuel` builder invocations. -/
lemma reworkLoop_countP_builder_le (env : AgentEnv) (u : String) (sme : DBSMEOutput) :
    ∀ fuel bIdx vIdx b v,
      ((reworkLoop env u sme fuel bIdx vIdx b v).2.2).countP Event.isBuilder ≤ fuel := by
  intro fuel
  induction fuel with
  | zero => intro bIdx vIdx b v; simp [reworkLoop]
  | succ n ih =>
    intro bIdx vIdx b v
    simp only [reworkLoop]
    split
    · have h := ih (bIdx + 1) (vIdx + 1)
        (env.builderResponse bIdx (mkReworkContext u sme b v))
        (env.validatorResponse vIdx (env.builderResponse bIdx (mkReworkContext u sme b v)).sql_query)
      simp only [List.countP_cons, Event.isBuilder, Event.isValidator]
      simp
      omega
    · simp

/-- When entered with a valid validation result the rework loop performs
no agent invocation and returns its arguments unchanged. -/
lemma reworkLoop_valid_nil (env : AgentEnv) (u : String) (sme : DBSMEOutput)
    (fuel bIdx vIdx : Nat) (b : SQLQueryOutput) (v : SQLValidationOutput)
    (h : v.sql_valid = true) :
    reworkLoop env u sme fuel bIdx vIdx b v = (b, v, []) := by
  cases fuel <;> simp [reworkLoop, h]

lemma cons_getLast?_eq {α : Type} (a : α) (l : List α) :
    (a :: l).getLast? = some (l.getLast?.getD a) := by
  induction l generalizing a with
  | nil => rfl
  | cons b l ih => rw [List.getLast?_cons_cons, ih b]; simp

/-- The builder output returned by the rework loop is the last builder
output in its trace (or the input builder output when the loop performed
no rework). -/
lemma reworkLoop_last_builder (env : AgentEnv) (u : String) (sme : DBSMEOutput) :
    ∀ fuel bIdx vIdx b v,
      (builderOutputs (reworkLoop env u sme fuel bIdx vIdx b v).2.2).getLast?.getD b
        = (reworkLoop env u sme fuel bIdx vIdx b v).1 := by
  intro fuel
  induction fuel with
  | zero => intro bIdx vIdx b v; simp [reworkLoop, builderOutputs]
  | succ n ih =>
    intro bIdx vIdx b v
    simp only [reworkLoop]
    split
    · have h := ih (bIdx + 1) (vIdx + 1)
        (env.builderResponse bIdx (mkReworkContext u sme b v))
        (env.validatorResponse vIdx (env.builderResponse bIdx (mkReworkContext u sme b v)).sql_query)
      simp only [builderOutputs, List.filterMap_cons] at h ⊢
      rw [cons_getLast?_eq]
      simpa using h
    · simp [builderOutputs]

/-- Claim C1: starting from `retry_count = 0` with `max_retries = 3`, the
rework loop re-invokes the builder agent at most `max_retries` times after
its initial invocation, whatever the validator reports: every run's trace
contains at most `1 + max_retries` builder invocations. -/
theorem claim_C1_rework_bound (env : AgentEnv) (u db sch : String) (f : Bool) :
    (run_sql_query_agents env u db sch f).trace.countP Event.isBuilder ≤ 1 + max_retries := by
  by_cases h : (env.smeResponse u).sufficient_context = false
  · simp [run_sql_query_agents, h, Event.isBuilder]
  · by_cases hc : (env.builderResponse 0 (env.smeResponse u).comment).validation_result = false
        ∨ f = true
    · have hl := reworkLoop_countP_builder_le env u (env.smeResponse u) max_retries 1 1
        (env.builderResponse 0 (env.smeResponse u).comment)
        (env.validatorResponse 0 (env.builderResponse 0 (env.smeResponse u).comment).sql_query)
      simp [run_sql_query_agents, h, hc, List.countP_cons, Event.isBuilder]
      omega
    · simp [run_sql_query_agents, h, hc, List.countP_cons, Event.isBuilder]

/-- Claim C3: when the SME agent reports sufficient context, the validator
agent is invoked iff the builder's `validation_result` is false or
`force_validator_agent` is set; when `validation_result` is true and the
flag is unset, the builder's first query is returned with no validator
invocation and no rework. -/
theorem claim_C3_validator_trigger (env : AgentEnv) (u db sch : String) (f : Bool)
    (h : (env.smeResponse u).sufficient_context = true) :
    ((∃ q v, Event.validator q v ∈ (run_sql_query_agents env u db sch f).trace) ↔
        ((env.builderResponse 0 (env.smeResponse u).comment).validation_result = false
          ∨ f = true)) ∧
    ((env.builderResponse 0 (env.smeResponse u).comment).validation_result = true →
      f = false →
        (run_sql_query_agents env u db sch f).response.sql_query
            = some (env.builderResponse 0 (env.smeResponse u).comment).sql_query ∧
        (run_sql_query_agents env u db sch f).response.message
            = some (env.builderResponse 0 (env.smeResponse u).comment).comment ∧
        (run_sql_query_agents env u db sch f).trace
            = [Event.sme u (env.smeResponse u),
               Event.builder (env.smeResponse u).comment
                 (env.builderResponse 0 (env.smeResponse u).comment)]) := by
  by_cases hc : (env.builderResponse 0 (env.smeResponse u).comment).validation_result = false
      ∨ f = true
  · constructor
    · simp only [run_sql_query_agents, h, hc]
      simp [hc]
      exact ⟨_, _, Or.inl ⟨rfl, rfl⟩⟩
    · intro hval hf
      rcases hc with hc | hc
      · rw [hval] at hc; exact absurd hc (by simp)
      · rw [hf] at hc; exact absurd hc (by simp)
  · constructor
    · simp only [run_sql_query_agents, h, hc]
      simp [hc]
    · intro hval hf
      simp [run_sql_query_agents, h, hc]

/-- Claim C4: the returned `sql_query` is exactly the query produced by
the last builder invocation (or `""` on the insufficient-context path,
where the message is the SME comment instead), and the returned message
is that builder invocation's comment. -/
theorem claim_C4_output_is_last_builder (env : AgentEnv) (u db sch : String) (f : Bool) :
    ((env.smeResponse u).sufficient_context = false →
        (run_sql_query_agents env u db sch f).response.sql_query = some "" ∧
        (run_sql_query_agents env u db sch f).response.message
          = some (env.smeResponse u).comment) ∧
    ((env.smeResponse u).sufficient_context = true →
        ∃ b, (builderOutputs (run_sql_query_agents env u db sch f).trace).getLast? = some b ∧
          (run_sql_query_agents env u db sch f).response.sql_query = some b.sql_query ∧
          (run_sql_query_agents env u db sch f).response.message = some b.comment) := by
  constructor
  · intro h
    simp [run_sql_query_agents, h]
  · intro h
    by_cases hc : (env.builderResponse 0 (env.smeResponse u).comment).validation_result = false
        ∨ f = true
    · refine ⟨(reworkLoop env u (env.smeResponse u) max_retries 1 1
          (env.builderResponse 0 (env.smeResponse u).comment)
          (env.validatorResponse 0
            (env.builderResponse 0 (env.smeResponse u).comment).sql_query)).1, ?_, ?_, ?_⟩
      · simp only [run_sql_query_agents]
        simp [h, hc, builderOutputs, List.filterMap_cons]
        rw [cons_getLast?_eq]
        exact congrArg some (reworkLoop_last_builder env u (env.smeResponse u) max_retries 1 1
          (env.builderResponse 0 (env.smeResponse u).comment)
          (env.validatorResponse 0 (env.builderResponse 0 (env.smeResponse u).comment).sql_query))
      · simp [run_sql_query_agents, h, hc]
      · simp [run_sql_query_agents, h, hc]
    · refine ⟨env.builderResponse 0 (env.smeResponse u).comment, ?_, ?_, ?_⟩
      · simp [run_sql_query_agents, h, hc, builderOutputs, List.filterMap_cons]
      · simp [run_sql_query_agents, h, hc]
      · simp [run_sql_query_agents, h, hc]

/-- Claim C7: the orchestration is deterministic sequencing: two runs
with the same inputs, the same flag and identical responses from each
agent invocation produce the same invocation trace, the same final
handler state, and equal final outputs. -/
theorem claim_C7_deterministic (env₁ env₂ : AgentEnv) (u db sch : String) (f : Bool)
    (hs : ∀ s, env₁.smeResponse s = env₂.smeResponse s)
    (hb : ∀ n s, env₁.builderResponse n s = env₂.builderResponse n s)
    (hv : ∀ n s, env₁.validatorResponse n s = env₂.validatorResponse n s) :
    run_sql_query_agents env₁ u db sch f = run_sql_query_agents env₂ u db sch f := by
  obtain ⟨s₁, b₁, v₁⟩ := env₁
  obtain ⟨s₂, b₂, v₂⟩ := env₂
  have h₁ : s₁ = s₂ := funext hs
  have h₂ : b₁ = b₂ := funext fun n => funext (hb n)
  have h₃ : v₁ = v₂ := funext fun n => funext (hv n)
  subst h₁; subst h₂; subst h₃
  rfl

/-- Claim C8: when the SME agent reports insufficient context the run
returns immediately with the SME comment as message and `""` as query,
and neither the builder nor the validator agent is invoked. -/
theorem claim_C8_insufficient_early_return (env : AgentEnv) (u db sch : String) (f : Bool)
    (h : (env.smeResponse u).sufficient_context = false) :
    (run_sql_query_agents env u db sch f).response.message
        = some (env.smeResponse u).comment ∧
    (run_sql_query_agents env u db sch f).response.sql_query = some "" ∧
    (run_sql_query_agents env u db sch f).trace = [Event.sme u (env.smeResponse u)] ∧
    (run_sql_query_agents env u db sch f).trace.countP Event.isBuilder = 0 ∧
    (run_sql_query_agents env u db sch f).trace.countP Event.isValidator = 0 := by
  simp [run_sql_query_agents, h, Event.isBuilder, Event.isValidator, List.countP_cons]

/-- In a rework-loop trace, nothing follows a validator invocation that
reported the query valid: once `sql_valid` is true the loop exits, so in
particular no later builder invocation exists. -/
lemma reworkLoop_after_valid_validator_nil (env : AgentEnv) (u : String) (sme : DBSMEOutput) :
    ∀ fuel bIdx vIdx b v l₁ l₂ q vv,
      (reworkLoop env u sme fuel bIdx vIdx b v).2.2 = l₁ ++ Event.validator q vv :: l₂ →
      vv.sql_valid = true →
      l₂ = [] := by
  intro fuel
  induction fuel with
  | zero =>
    intro bIdx vIdx b v l₁ l₂ q vv hsplit _
    simp [reworkLoop] at hsplit
  | succ n ih =>
    intro bIdx vIdx b v l₁ l₂ q vv hsplit hvalid
    by_cases hv : v.sql_valid = false
    · simp only [reworkLoop, if_pos hv] at hsplit
      cases l₁ with
      | nil => simp at hsplit
      | cons e₁ t₁ =>
        simp only [List.cons_append, List.cons.injEq] at hsplit
        obtain ⟨-, hsplit⟩ := hsplit
        cases t₁ with
        | nil =>
          simp only [List.nil_append, List.cons.injEq, Event.validator.injEq] at hsplit
          obtain ⟨⟨-, hv2⟩, hl₂⟩ := hsplit
          have hnil := reworkLoop_valid_nil env u sme n (bIdx + 1) (vIdx + 1)
            (env.builderResponse bIdx (mkReworkContext u sme b v))
            (env.validatorResponse vIdx
              (env.builderResponse bIdx (mkReworkContext u sme b v)).sql_query)
            (by rw [hv2]; exact hvalid)
          rw [hnil] at hl₂
          exact hl₂.symm
        | cons e₂ t₂ =>
          simp only [List.cons_append, List.cons.injEq] at hsplit
          obtain ⟨-, hsplit⟩ := hsplit
          exact ih (bIdx + 1) (vIdx + 1) _ _ t₂ l₂ q vv hsplit hvalid
    · simp only [reworkLoop, if_neg hv] at hsplit
      simp at hsplit

/-- In a rework-loop trace, every validator invocation is directly
preceded by the builder invocation whose query it validates. -/
lemma reworkLoop_validator_preceded (env : AgentEnv) (u : String) (sme : DBSMEOutput) :
    ∀ fuel bIdx vIdx b v l₁ l₂ q vv,
      (reworkLoop env u sme fuel bIdx vIdx b v).2.2 = l₁ ++ Event.validator q vv :: l₂ →
      ∃ l₃ inp bb l₄, l₁ = l₃ ++ Event.builder inp bb :: l₄ ∧ bb.sql_query = q := by
  intro fuel
  induction fuel with
  | zero =>
    intro bIdx vIdx b v l₁ l₂ q vv hsplit
    simp [reworkLoop] at hsplit
  | succ n ih =>
    intro bIdx vIdx b v l₁ l₂ q vv hsplit
    by_cases hv : v.sql_valid = false
    · simp only [reworkLoop, if_pos hv] at hsplit
      cases l₁ with
      | nil => simp at hsplit
      | cons e₁ t₁ =>
        simp only [List.cons_append, List.cons.injEq] at hsplit
        obtain ⟨he₁, hsplit⟩ := hsplit
        cases t₁ with
        | nil =>
          simp only [List.nil_append, List.cons.injEq, Event.validator.injEq] at hsplit
          obtain ⟨⟨hq, -⟩, -⟩ := hsplit
          exact ⟨[], mkReworkContext u sme b v,
            env.builderResponse bIdx (mkReworkContext u sme b v), [],
            by rw [he₁]; rfl, hq⟩
        | cons e₂ t₂ =>
          simp only [List.cons_append, List.cons.injEq] at hsplit
          obtain ⟨he₂, hsplit⟩ := hsplit
          obtain ⟨l₃, inp, bb, l₄, ht₂, hbq⟩ :=
            ih (bIdx + 1) (vIdx + 1) _ _ t₂ l₂ q vv hsplit
          exact ⟨e₁ :: e₂ :: l₃, inp, bb, l₄, by rw [ht₂]; simp, hbq⟩
    · simp only [reworkLoop, if_neg hv] at hsplit
      simp at hsplit

/-- Claim C2: once the validator agent reports `sql_valid = true` in a
run, the builder agent is never invoked again in that run: no builder
invocation occurs after a valid validator invocation in the trace. -/
theorem claim_C2_valid_stops_rework (env : AgentEnv) (u db sch : String) (f : Bool)
    (l₁ l₂ : List Event) (q : String) (vv : SQLValidationOutput)
    (hsplit : (run_sql_query_agents env u db sch f).trace = l₁ ++ Event.validator q vv :: l₂)
    (hvalid : vv.sql_valid = true) :
    l₂.countP Event.isBuilder = 0 := by
  by_cases h : (env.smeResponse u).sufficient_context = false
  · simp only [run_sql_query_agents, if_pos h] at hsplit
    cases l₁ with
    | nil => simp at hsplit
    | cons e₁ t₁ =>
      simp only [List.cons_append, List.cons.injEq] at hsplit
      exact absurd hsplit.2 (by simp)
  · by_cases hc : (env.builderResponse 0 (env.smeResponse u).comment).validation_result = false
        ∨ f = true
    · simp only [run_sql_query_agents, if_neg h, if_pos hc] at hsplit
      cases l₁ with
      | nil => simp at hsplit
      | cons e₁ t₁ =>
        simp only [List.cons_append, List.cons.injEq] at hsplit
        obtain ⟨-, hsplit⟩ := hsplit
        cases t₁ with
        | nil => simp at hsplit
        | cons e₂ t₂ =>
          simp only [List.cons_append, List.cons.injEq] at hsplit
          obtain ⟨-, hsplit⟩ := hsplit
          cases t₂ with
          | nil =>
            simp only [List.nil_append, List.cons.injEq, Event.validator.injEq] at hsplit
            obtain ⟨⟨-, hv0⟩, hl₂⟩ := hsplit
            have hnil := reworkLoop_valid_nil env u (env.smeResponse u) max_retries 1 1
              (env.builderResponse 0 (env.smeResponse u).comment)
              (env.validatorResponse 0
                (env.builderResponse 0 (env.smeResponse u).comment).sql_query)
              (by rw [hv0]; exact hvalid)
            rw [hnil] at hl₂
            rw [← hl₂]
            simp
          | cons e₃ t₃ =>
            simp only [List.cons_append, List.cons.injEq] at hsplit
            obtain ⟨-, hsplit⟩ := hsplit
            have hl₂ := reworkLoop_after_valid_validator_nil env u (env.smeResponse u)
              max_retries 1 1
              (env.builderResponse 0 (env.smeResponse u).comment)
              (env.validatorResponse 0
                (env.builderResponse 0 (env.smeResponse u).comment).sql_query)
              t₃ l₂ q vv hsplit hvalid
            rw [hl₂]
            simp
    · simp only [run_sql_query_agents, if_neg h, if_neg hc] at hsplit
      cases l₁ with
      | nil => simp at hsplit
      | cons e₁ t₁ =>
        simp only [List.cons_append, List.cons.injEq] at hsplit
        obtain ⟨-, hsplit⟩ := hsplit
        cases t₁ with
        | nil => simp at hsplit
        | cons e₂ t₂ =>
          simp only [List.cons_append, List.cons.injEq] at hsplit
          obtain ⟨-, hsplit⟩ := hsplit
          simp at hsplit

/-- Claim C6: in every run returning a non-empty SQL query the pipeline
stages occur strictly in order: the SME invocation is the first event of
the trace, every builder invocation is preceded by the SME invocation,
and every validator invocation is preceded by a builder invocation whose
query it validates. -/
theorem claim_C6_pipeline_order (env : AgentEnv) (u db sch : String) (f : Bool) (qq : String)
    (hret : (run_sql_query_agents env u db sch f).response.sql_query = some qq)
    (hne : qq ≠ "") :
    (run_sql_query_agents env u db sch f).trace.head?
        = some (Event.sme u (env.smeResponse u)) ∧
    (∀ l₁ l₂ inp bb, (run_sql_query_agents env u db sch f).trace
          = l₁ ++ Event.builder inp bb :: l₂ →
        Event.sme u (env.smeResponse u) ∈ l₁) ∧
    (∀ l₁ l₂ q vv, (run_sql_query_agents env u db sch f).trace
          = l₁ ++ Event.validator q vv :: l₂ →
        ∃ l₃ inp bb l₄, l₁ = l₃ ++ Event.builder inp bb :: l₄ ∧ bb.sql_query = q) := by
  have hhead : ∃ rest, (run_sql_query_agents env u db sch f).trace
      = Event.sme u (env.smeResponse u) :: rest := by
    by_cases h : (env.smeResponse u).sufficient_context = false
    · exact ⟨[], by simp [run_sql_query_agents, h]⟩
    · by_cases hc : (env.builderResponse 0 (env.smeResponse u).comment).validation_result = false
          ∨ f = true
      · exact ⟨Event.builder (env.smeResponse u).comment
            (env.builderResponse 0 (env.smeResponse u).comment) ::
          Event.validator (env.builderResponse 0 (env.smeResponse u).comment).sql_query
            (env.validatorResponse 0
              (env.builderResponse 0 (env.smeResponse u).comment).sql_query) ::
          (reworkLoop env u (env.smeResponse u) max_retries 1 1
            (env.builderResponse 0 (env.smeResponse u).comment)
            (env.validatorResponse 0
              (env.builderResponse 0 (env.smeResponse u).comment).sql_query)).2.2,
          by simp [run_sql_query_agents, h, hc]⟩
      · exact ⟨[Event.builder (env.smeResponse u).comment
            (env.builderResponse 0 (env.smeResponse u).comment)],
          by simp [run_sql_query_agents, h, hc]⟩
  obtain ⟨rest, hr⟩ := hhead
  refine ⟨by rw [hr]; rfl, ?_, ?_⟩
  · intro l₁ l₂ inp bb hs
    rw [hr] at hs
    cases l₁ with
    | nil => simp at hs
    | cons e₁ t₁ =>
      simp only [List.cons_append, List.cons.injEq] at hs
      rw [← hs.1]
      exact List.mem_cons_self _ _
  · intro l₁ l₂ q vv hs
    by_cases h : (env.smeResponse u).sufficient_context = false
    · simp only [run_sql_query_agents, if_pos h] at hs
      cases l₁ with
      | nil => simp at hs
      | cons e₁ t₁ =>
        simp only [List.cons_append, List.cons.injEq] at hs
        exact absurd hs.2 (by simp)
    · by_cases hc : (env.builderResponse 0 (env.smeResponse u).comment).validation_result = false
          ∨ f = true
      · simp only [run_sql_query_agents, if_neg h, if_pos hc] at hs
        cases l₁ with
        | nil => simp at hs
        | cons e₁ t₁ =>
          simp only [List.cons_append, List.cons.injEq] at hs
          obtain ⟨he₁, hs⟩ := hs
          cases t₁ with
          | nil => simp at hs
          | cons e₂ t₂ =>
            simp only [List.cons_append, List.cons.injEq] at hs
            obtain ⟨he₂, hs⟩ := hs
            cases t₂ with
            | nil =>
              simp only [List.nil_append, List.cons.injEq, Event.validator.injEq] at hs
              obtain ⟨⟨hq, -⟩, -⟩ := hs
              exact ⟨[e₁], (env.smeResponse u).comment,
                env.builderResponse 0 (env.smeResponse u).comment, [],
                by rw [← he₂]; rfl, hq⟩
            | cons e₃ t₃ =>
              simp only [List.cons_append, List.cons.injEq] at hs
              obtain ⟨he₃, hs⟩ := hs
              obtain ⟨l₃, inp, bb, l₄, ht₃, hbq⟩ :=
                reworkLoop_validator_preceded env u (env.smeResponse u) max_retries 1 1
                  (env.builderResponse 0 (env.smeResponse u).comment)
                  (env.validatorResponse 0
                    (env.builderResponse 0 (env.smeResponse u).comment).sql_query)
                  t₃ l₂ q vv hs
              exact ⟨e₁ :: e₂ :: e₃ :: l₃, inp, bb, l₄, by rw [ht₃]; simp, hbq⟩
      · simp only [run_sql_query_agents, if_neg h, if_neg hc] at hs
        cases l₁ with
        | nil => simp at hs
        | cons e₁ t₁ =>
          simp only [List.cons_append, List.cons.injEq] at hs
          obtain ⟨-, hs⟩ := hs
          cases t₁ with
          | nil => simp at hs
          | cons e₂ t₂ =>
            simp only [List.cons_append, List.cons.injEq] at hs
            obtain ⟨-, hs⟩ := hs
            simp at hs

/-- Claim C5 counterexample: on the insufficient-context return path the
run returns with the connection still open — `close_connection()` is not
called before the early `return`, so the claim that every return path
closes the connection is false. -/
theorem claim_C5_counterexample :
    (run_sql_query_agents envSmeInsufficient "q" "db" "sch" false).handler.connection
      ≠ none := by
  simp [run_sql_query_agents, envSmeInsufficient]

/-- Claim C5 (amended): on the return paths where the SME agent reports
sufficient context the connection is closed (reset to `None`) before the
function returns; on the insufficient-context early return the
connection opened at the start of the run is left open. -/
theorem claim_C5_amended_connection (env : AgentEnv) (u db sch : String) (f : Bool) :
    ((env.smeResponse u).sufficient_context = true →
      (run_sql_query_agents env u db sch f).handler.connection = none) ∧
    ((env.smeResponse u).sufficient_context = false →
      (run_sql_query_agents env u db sch f).handler.connection = some ()) := by
  constructor
  · intro h
    by_cases hc : (env.builderResponse 0 (env.smeResponse u).comment).validation_result = false
        ∨ f = true
    · simp [run_sql_query_agents, h, hc]
    · simp [run_sql_query_agents, h, hc]
  · intro h
    simp [run_sql_query_agents, h]

/-- Claim C9: every modelled `SnowflakeHandler` query method raises
"Connection not established. Call connect() first." and issues no
warehouse statement when `connection` is `None`; when connected,
`validate_query` issues exactly `EXPLAIN {query}` (never the query
itself), returns "✅ Query is valid." when EXPLAIN succeeds and an error
string, without raising, when it fails. -/
theorem claim_C9_handler_query_methods (st : SFState) (wh : Warehouse) (q : String) :
    (st.connection = none →
        SnowflakeHandler.get_tables st wh = (Except.error connection_error_msg, []) ∧
        SnowflakeHandler.execute_query_df st wh q = (Except.error connection_error_msg, []) ∧
        SnowflakeHandler.execute_query_md st wh q = (Except.error connection_error_msg, []) ∧
        SnowflakeHandler.validate_query st wh q = (Except.error connection_error_msg, [])) ∧
    (∀ c, st.connection = some c →
        (SnowflakeHandler.validate_query st wh q).2 = ["EXPLAIN " ++ q] ∧
        (∀ s ∈ (SnowflakeHandler.validate_query st wh q).2, s ≠ q) ∧
        (∀ fd, wh ("EXPLAIN " ++ q) = Except.ok fd →
          (SnowflakeHandler.validate_query st wh q).1 = Except.ok "✅ Query is valid.") ∧
        (∀ e, wh ("EXPLAIN " ++ q) = Except.error e →
          (SnowflakeHandler.validate_query st wh q).1
            = Except.ok ("❌ Query is invalid \n" ++ e ++ "\n" ++ q))) := by
  constructor
  · intro h
    simp [SnowflakeHandler.get_tables, SnowflakeHandler.execute_query_df,
      SnowflakeHandler.execute_query_md, SnowflakeHandler.validate_query, h]
  · intro c h
    have hns : st.connection.isNone = false := by rw [h]; rfl
    have hiss : (SnowflakeHandler.validate_query st wh q).2 = ["EXPLAIN " ++ q] := by
      simp only [SnowflakeHandler.validate_query, hns]
      cases hw : wh ("EXPLAIN " ++ q) <;> simp
    refine ⟨hiss, ?_, ?_, ?_⟩
    · intro s hs
      rw [hiss] at hs
      simp only [List.mem_singleton] at hs
      rw [hs]
      intro heq
      have hlen := congrArg String.length heq
      rw [String.length_append] at hlen
      simp at hlen
      exact absurd hlen (by decide)
    · intro fd hfd
      simp [SnowflakeHandler.validate_query, hns, hfd]
    · intro e he
      simp [SnowflakeHandler.validate_query, hns, he]

/-- Claim C10: `convert_decimals_to_float` returns an empty frame
unchanged; on a non-empty frame it casts with `.astype(float)` exactly
those columns whose first element is a `Decimal` and leaves every other
column unchanged, even when later rows contain `Decimal` values. -/
theorem claim_C10_convert_decimals (df : DataFrame) :
    (df.empty = true → convert_decimals_to_float df = df) ∧
    (df.empty = false →
      ∀ (i : Nat) (name : String) (col : List Cell), df.cols[i]? = some (name, col) →
        ∀ c0 : Cell, col.head? = some c0 →
          (c0.isDecimal = true →
            (convert_decimals_to_float df).cols[i]? = some (name, col.map Cell.astypeFloat)) ∧
          (c0.isDecimal = false →
            (convert_decimals_to_float df).cols[i]? = some (name, col))) := by
  constructor
  · intro h
    simp [convert_decimals_to_float, h]
  · intro h i name col hcol c0 hc0
    constructor
    · intro hdec
      simp only [convert_decimals_to_float, h]
      simp only [Bool.false_eq_true, if_false]
      rw [List.getElem?_map, hcol]
      simp [hc0, hdec]
    · intro hdec
      simp only [convert_decimals_to_float, h]
      simp only [Bool.false_eq_true, if_false]
      rw [List.getElem?_map, hcol]
      simp [hc0, hdec]

theorem claim_C2_witness :
    ([] : List Event).countP Event.isBuilder = 0 :=
  claim_C2_valid_stops_rework envAllValid "q" "db" "sch" true
    [Event.sme "q" { sufficient_context := true, comment := "ctx" },
     Event.builder "ctx" { sql_query := "SELECT 1", comment := "b", validation_result := true }]
    [] "SELECT 1" { sql_valid := true, comment := "v" } rfl rfl

theorem claim_C3_witness :
    (run_sql_query_agents envAllValid "q" "db" "sch" false).response.sql_query
        = some "SELECT 1" ∧
    (run_sql_query_agents envAllValid "q" "db" "sch" false).trace
        = [Event.sme "q" { sufficient_context := true, comment := "ctx" },
           Event.builder "ctx" { sql_query := "SELECT 1", comment := "b", validation_result := true }] := by
  have h := (claim_C3_validator_trigger envAllValid "q" "db" "sch" false rfl).2 rfl rfl
  exact ⟨h.1, h.2.2⟩

theorem claim_C4_witness :
    ∃ b, (builderOutputs (run_sql_query_agents envAllValid "q" "db" "sch" true).trace).getLast?
          = some b ∧
      (run_sql_query_agents envAllValid "q" "db" "sch" true).response.sql_query
          = some b.sql_query ∧
      (run_sql_query_agents envAllValid "q" "db" "sch" true).response.message
          = some b.comment :=
  (claim_C4_output_is_last_builder envAllValid "q" "db" "sch" true).2 rfl

theorem claim_C5_witness :
    (run_sql_query_agents envAllValid "q" "db" "sch" false).handler.connection = none :=
  (claim_C5_amended_connection envAllValid "q" "db" "sch" false).1 rfl

theorem claim_C6_witness :
    (run_sql_query_agents envAllValid "q" "db" "sch" true).trace.head?
        = some (Event.sme "q" { sufficient_context := true, comment := "ctx" }) :=
  (claim_C6_pipeline_order envAllValid "q" "db" "sch" true "SELECT 1" rfl (by decide)).1

theorem claim_C7_witness :
    run_sql_query_agents envAllValid "q" "db" "sch" false
      = run_sql_query_agents envAllValid "q" "db" "sch" false :=
  claim_C7_deterministic envAllValid envAllValid "q" "db" "sch" false
    (fun _ => rfl) (fun _ _ => rfl) (fun _ _ => rfl)

theorem claim_C8_witness :
    (run_sql_query_agents envSmeInsufficient "q" "db" "sch" false).response.message
        = some "need more info" ∧
    (run_sql_query_agents envSmeInsufficient "q" "db" "sch" false).response.sql_query
        = some "" := by
  have h := claim_C8_insufficient_early_return envSmeInsufficient "q" "db" "sch" false rfl
  exact ⟨h.1, h.2.1⟩

theorem claim_C9_witness :
    SnowflakeHandler.validate_query stNoConn whOk "SELECT 1"
        = (Except.error connection_error_msg, []) ∧
    (SnowflakeHandler.validate_query stConn whOk "SELECT 1").2 = ["EXPLAIN SELECT 1"] ∧
    (SnowflakeHandler.validate_query stConn whOk "SELECT 1").1
        = Except.ok "✅ Query is valid." ∧
    (SnowflakeHandler.validate_query stConn whErr "SELECT 1").1
        = Except.ok ("❌ Query is invalid \nsyntax error\nSELECT 1") := by
  have h1 := (claim_C9_handler_query_methods stNoConn whOk "SELECT 1").1 rfl
  have h2 := (claim_C9_handler_query_methods stConn whOk "SELECT 1").2 () rfl
  have h3 := (claim_C9_handler_query_methods stConn whErr "SELECT 1").2 () rfl
  exact ⟨h1.2.2.2, h2.1, h2.2.2.1 _ rfl, h3.2.2.2 "syntax error" rfl⟩

theorem claim_C10_witness :
    (convert_decimals_to_float dfEx).cols[0]?
        = some ("a", [Cell.numFloat 1, Cell.numFloat 2]) ∧
    (convert_decimals_to_float dfEx).cols[1]?
        = some ("b", [Cell.numInt 3, Cell.decimal 4]) := by
  have h := (claim_C10_convert_decimals dfEx).2 rfl
  have h0 := (h 0 "a" [Cell.decimal 1, Cell.numInt 2] rfl (Cell.decimal 1) rfl).1 rfl
  have h1 := (h 1 "b" [Cell.numInt 3, Cell.decimal 4] rfl (Cell.numInt 3) rfl).2 rfl
  exact ⟨h0, h1⟩
